import Mathlib

/-!
Shallow embedding of the treelite Python frontend (`python/treelite/frontend.py`).

The Python module wraps a native library through `ctypes`; every native call is
routed through `_check_call`, which raises `TreeliteError` on a nonzero return.
The native layer is opaque to the frontend, so it is modelled as a black box
that succeeds on the paths the frontend reaches after its own validation, except
where a behaviour of the native layer is itself specified (see
`nativeDeleteTreeOk`, which is modelled from the spec).

Python's in-place mutation is rendered as explicit state passing: every
operation returns a pair of its result (`Except Err _`, one `Err` constructor
per distinct `raise` site) and the post-state; a `raise` that happens before any
mutation returns the unchanged state, mirroring the statement order of the
source.
-/

namespace Treelite

/-- Error kinds, one per distinct `raise` site of `frontend.py` (plus
`nativeFailure` for a `TreeliteError` raised by `_check_call` when a native
call reports failure). -/
inductive Err where
  /-- `ValueError('Value must be of type ModelBuidler.Node')` -/
  | notANode
  /-- `KeyError('Nodes with duplicate keys are not allowed. ...')` -/
  | duplicateKey
  /-- `ValueError('Can only insert an empty node')` -/
  | nonEmptyInsertion
  /-- `TreeliteError('This node has never been inserted into a tree; ...')` -/
  | unregisteredNode
  /-- `TreeliteError('leaf_value parameter should be either a single float or a list of floats')` -/
  | leafValueType
  /-- a `ValueError('could not convert string to float: ...')` raised by `float()`
  inside `set_leaf_node` and escaping uncaught: the `except TypeError` at line 317
  does not catch `ValueError` -/
  | uncaughtValueError
  /-- `ValueError('index out of bounds')` -/
  | indexOutOfBounds
  /-- `TreeliteError` raised by `_check_call` on a failing native call -/
  | nativeFailure
  /-- `ValueError('model_format parameter must be an ASCII string')` -/
  | formatNotAscii
  /-- `ValueError('Unknown model_format: must be one of \x7blightgbm, xgboost, protobuf\x7d')` -/
  | unknownFormat
deriving DecidableEq

/-- `ModelBuilder.Node` (`frontend.py` lines 273-276): `__init__` sets only
`self.empty = True`.  The attributes `node_key` and `tree` are created later by
`Tree.__setitem__`; an `Option` value of `none` models the attribute being
absent (so that attribute access raises `AttributeError`).  The `tree`
back-reference is modelled as the `tid` of the owning tree. -/
structure Node where
  empty : Bool
  node_key : Option Int
  tree : Option Nat
deriving DecidableEq

/-- `ModelBuilder.Node.__init__`: a fresh node, `empty = True`, no `node_key`
or `tree` attribute yet. -/
def Node.new : Node := { empty := true, node_key := none, tree := none }

/-- A Python value passed as the `value` argument of `Tree.__setitem__`:
either a `ModelBuilder.Node` object or any other object (which fails the
`isinstance(value, ModelBuilder.Node)` check). -/
inductive PyObj where
  | node (n : Node)
  | nonNode
deriving DecidableEq

/-- `ModelBuilder.Tree` (`frontend.py` lines 427-484): `self.nodes` is a
Python dict (insertion ordered, unique keys), modelled as an association list
appended at the end on insertion.  `tid` identifies the tree (target of node
back-references).  `ensemble` models the presence of the `self.ensemble`
attribute set by `ModelBuilder.insert`.  The native tree-builder handle is not
modelled (all native tree-builder calls on the frontend's validated paths
succeed). -/
structure Tree where
  tid : Nat
  nodes : List (Int × Node)
  ensemble : Bool
deriving DecidableEq

/-- Python dict lookup `self.nodes[key]` / membership `key in self.nodes` on
the association-list model. -/
def lookupKey (k : Int) : List (Int × Node) → Option Node
  | [] => none
  | (k2, n) :: rest => if k2 = k then some n else lookupKey k rest

/-- `key in self.nodes`. -/
def Tree.member (t : Tree) (k : Int) : Bool := (lookupKey k t.nodes).isSome

/-- `Tree.__len__` (line 451-452): `len(self.nodes)`. -/
def Tree.len (t : Tree) : Nat := t.nodes.length

/-- `Tree.__setitem__` (lines 460-474).  Checks, in source order:
`isinstance(value, ModelBuilder.Node)`, duplicate key, `value.empty`; then the
native `TreeliteTreeBuilderCreateNode` call, the dict insertion, and
`value.node_key = key; value.tree = self` on the (shared) node object.
Returns the result (the registered node on success) and the post-state tree;
each `raise` returns the tree unchanged, since it precedes every mutation. -/
def Tree.setitem (t : Tree) (k : Int) (v : PyObj) : Except Err Node × Tree :=
  match v with
  | .nonNode => (.error .notANode, t)
  | .node n =>
    if (lookupKey k t.nodes).isSome then (.error .duplicateKey, t)
    else if !n.empty then (.error .nonEmptyInsertion, t)
    else
      let n2 : Node := { n with node_key := some k, tree := some t.tid }
      (.ok n2, { t with nodes := t.nodes ++ [(k, n2)] })

/-- `Tree.__getitem__` (lines 454-458): a missing key is implicitly created by
calling `__setitem__` with a fresh `Node()`, then the stored node is returned.
(`__setitem__` cannot fail there: the key is absent and the fresh node is
empty; its returned node is the one stored at `key`.) -/
def Tree.getitem (t : Tree) (k : Int) : Except Err Node × Tree :=
  match lookupKey k t.nodes with
  | some n => (.ok n, t)
  | none => t.setitem k (.node Node.new)

/-- Apply `f` to the node bound at key `k`, leaving other bindings alone. -/
def mutateNodes (k : Int) (f : Node → Node) : List (Int × Node) → List (Int × Node)
  | [] => []
  | (k2, n) :: rest => (if k2 = k then (k2, f n) else (k2, n)) :: mutateNodes k f rest

/-- Update the node stored at key `k` in place, if present; models Python
mutation of a node object (`self.empty = False`) that the owning tree's dict
aliases at the node's `node_key`.  Faithful under the builder invariant that
the entry of a tree at a registered node's `node_key` is that node itself
(the only states reachable through the API); the claim theorems below only
use it under that hypothesis. -/
def Tree.mutateAt (t : Tree) (k : Int) (f : Node → Node) : Tree :=
  { t with nodes := mutateNodes k f t.nodes }

/-- A Python value passed as `leaf_value` to `Node.set_leaf_node`:
`num q` is a numeric value (`int`/`float`: `float()` yields `q`, not
iterable); `str cs` is a string with characters `cs` (iterable — iteration
yields its one-character strings — and `float()` on it parses a number or
raises `ValueError`); `seq xs` is a list-like sequence (iterable; `float()`
on the sequence itself raises `TypeError`); `nonNum` is any other
non-iterable object on which `float()` raises `TypeError` (e.g. `None`). -/
inductive LeafVal where
  | num (q : ℚ)
  | str (cs : List Char)
  | seq (xs : List LeafVal)
  | nonNum

/-- The two exception kinds `float()` can raise: `TypeError` (caught by
`set_leaf_node`'s `except TypeError`, line 317) and `ValueError` (not caught
there). -/
inductive PyErr where
  | typeErr
  | valueErr
deriving DecidableEq

/-- Python `iter(leaf_value)` succeeding (lines 306-310): lists and strings
are iterable, numbers and `None`-like objects are not. -/
def LeafVal.isIterable : LeafVal → Bool
  | .seq _ => true
  | .str _ => true
  | _ => false

/-- Elements of an iterable value; iterating a string yields its
one-character strings. -/
def LeafVal.elems : LeafVal → List LeafVal
  | .seq xs => xs
  | .str cs => cs.map (fun c => .str [c])
  | _ => []

/-- The numeric value of a digit list, most significant first. -/
def digitsNat (cs : List Char) : Nat :=
  cs.foldl (fun acc c => acc * 10 + (c.toNat - 48)) 0

/-- Scale a rational by a power of ten (decimal exponent). -/
def scaleByPow10 (q : ℚ) (e : Int) : ℚ :=
  if 0 ≤ e then q * (((10 : ℕ) ^ e.toNat : ℕ) : ℚ)
  else q / (((10 : ℕ) ^ (-e).toNat : ℕ) : ℚ)

/-- The optional exponent tail of a Python float literal: empty (exponent
`0`), or `e`/`E`, an optional sign and at least one digit; anything else is a
parse failure. -/
def parseExpTail (cs : List Char) : Option Int :=
  match cs with
  | [] => some 0
  | c :: rest =>
    if c = 'e' ∨ c = 'E' then
      match rest with
      | '+' :: ds =>
        if ds ≠ [] ∧ ds.all Char.isDigit then some (digitsNat ds : Int) else none
      | '-' :: ds =>
        if ds ≠ [] ∧ ds.all Char.isDigit then some (-(digitsNat ds : Int)) else none
      | ds =>
        if ds ≠ [] ∧ ds.all Char.isDigit then some (digitsNat ds : Int) else none
    else none

/-- An unsigned Python float literal: `digits [. digits] [exp]` or
`. digits [exp]`, with at least one digit overall. -/
def parseUnsigned (cs : List Char) : Option ℚ :=
  let intPart := cs.takeWhile Char.isDigit
  let rest := cs.dropWhile Char.isDigit
  match rest with
  | '.' :: rest2 =>
    let fracPart := rest2.takeWhile Char.isDigit
    let rest3 := rest2.dropWhile Char.isDigit
    if intPart = [] ∧ fracPart = [] then none
    else
      (parseExpTail rest3).map (fun e =>
        scaleByPow10
          ((digitsNat intPart : ℚ) +
            (digitsNat fracPart : ℚ) / (((10 : ℕ) ^ fracPart.length : ℕ) : ℚ)) e)
  | _ =>
    if intPart = [] then none
    else (parseExpTail rest).map (fun e => scaleByPow10 (digitsNat intPart : ℚ) e)

/-- Python `float()` applied to a string: surrounding whitespace is stripped,
then an optional sign and a decimal/scientific literal are parsed; any other
string raises `ValueError` (`none`).  The non-finite literals `inf`/`nan`
(which have no rational representation) and the version-dependent
underscore-grouped digits are not part of the modelled string domain. -/
def pyFloatOfChars (cs : List Char) : Option ℚ :=
  let t := ((cs.dropWhile Char.isWhitespace).reverse.dropWhile Char.isWhitespace).reverse
  match t with
  | '+' :: rest => parseUnsigned rest
  | '-' :: rest => (parseUnsigned rest).map (fun q => -q)
  | _ => parseUnsigned t

/-- Python `float(v)`: yields the numeric value of a number, parses a string
(raising `ValueError` on a string that is not a number), and raises
`TypeError` on anything else (lists, `None`-like objects). -/
def pyFloat : LeafVal → Except PyErr ℚ
  | .num q => .ok q
  | .str cs =>
    match pyFloatOfChars cs with
    | some q => .ok q
    | none => .error .valueErr
  | .seq _ => .error .typeErr
  | .nonNum => .error .typeErr

/-- Python `[float(i) for i in xs]`: converts elementwise, raising the first
element's exception (`TypeError` or `ValueError`) as soon as one fails. -/
def pyFloatList : List LeafVal → Except PyErr (List ℚ)
  | [] => .ok []
  | v :: vs =>
    match pyFloat v with
    | .error e => .error e
    | .ok q =>
      match pyFloatList vs with
      | .error e => .error e
      | .ok qs => .ok (q :: qs)

/-- Value stored by the native leaf-setting call: the scalar passed to
`TreeliteTreeBuilderSetLeafNode` or the vector passed to
`TreeliteTreeBuilderSetLeafVectorNode`. -/
inductive LeafStored where
  | scalar (q : ℚ)
  | vector (qs : List ℚ)
deriving DecidableEq

/-- The conversion step of `set_leaf_node` (lines 305-319): the `iter` probe
selects the list or scalar branch, and the corresponding `float` conversion
either produces the value later handed to the native call or raises an
exception — `TypeError` or, from `float()` on a non-numeric string,
`ValueError`. -/
def leafConv (leaf_value : LeafVal) : Except PyErr LeafStored :=
  if leaf_value.isIterable then (pyFloatList leaf_value.elems).map .vector
  else (pyFloat leaf_value).map .scalar

/-- A single numeric value (the claim's classification of `leaf_value`). -/
def LeafVal.isNumeric : LeafVal → Bool
  | .num _ => true
  | _ => false

/-- The numeric content of a numeric value (defaulting elsewhere; only used
under an all-numeric hypothesis). -/
def LeafVal.numOf : LeafVal → ℚ
  | .num q => q
  | _ => 0

/-- `Node.set_root` (lines 281-291): the native call's arguments
`self.tree.handle` and `self.node_key` raise `AttributeError` on a node never
inserted into a tree, converted to the unregistered-node `TreeliteError`;
otherwise the native call succeeds and no Python-side state changes. -/
def Node.set_root (n : Node) : Except Err Unit × Node :=
  match n.tree with
  | none => (.error .unregisteredNode, n)
  | some _ =>
    match n.node_key with
    | none => (.error .unregisteredNode, n)
    | some _ => (.ok (), n)

/-- `Node.set_leaf_node` (lines 293-336).  In source order: the `iter` probe
(`is_list`), the `float` conversion — a `TypeError` there is caught and
raises the leaf-value-type `TreeliteError`, while a `ValueError` (from
`float()` on a non-numeric string) is not caught by the `except TypeError`
and propagates — then the native call, whose attribute accesses `self.tree` /
`self.node_key` raise the unregistered-node error on a node never inserted;
on success `self.empty = False`.  Returns the value handed to the native
layer and the post-state node.  (The owning tree's dict aliases the node
object; the tree is not an argument here, as the source only touches
`self`.) -/
def Node.set_leaf_node (n : Node) (leaf_value : LeafVal) : Except Err LeafStored × Node :=
  match leafConv leaf_value with
  | .error .typeErr => (.error .leafValueType, n)
  | .error .valueErr => (.error .uncaughtValueError, n)
  | .ok stored =>
    match n.tree with
    | none => (.error .unregisteredNode, n)
    | some _ =>
      match n.node_key with
      | none => (.error .unregisteredNode, n)
      | some _ => (.ok stored, { n with empty := false })

/-- The child auto-creation step of the test-node mutators (lines 363-367 and
408-412): `if key not in self.tree: self.tree[key] = ModelBuilder.Node()` — a
missing child key is bound to a fresh `Node()` through `Tree.__setitem__`
(which necessarily succeeds: the key is absent, the node fresh and empty). -/
def ensureKey (t : Tree) (key : Int) : Tree :=
  if (lookupKey key t.nodes).isSome then t
  else (t.setitem key (.node Node.new)).2

/-- `Node.set_numerical_test_node` (lines 339-379).  Inside the `try`: the
accesses to `self.tree` auto-create missing child keys (each via
`Tree.__setitem__` with a fresh `Node()`), then the native call reads
`self.node_key`, then `self.empty = False`.  A node never inserted into a tree
has no `tree` attribute, so it fails before any child creation.  The owning
tree is passed explicitly (it is `self.tree` when the attribute exists);
the post-state tree is returned alongside the post-state node. -/
def Node.set_numerical_test_node (n : Node) (t : Tree) (_feature_id : Nat)
    (_opname : String) (_threshold : ℚ) (_default_left : Bool)
    (left_child_key right_child_key : Int) : Except Err Node × Tree :=
  match n.tree with
  | none => (.error .unregisteredNode, t)
  | some _ =>
    let t2 := ensureKey (ensureKey t left_child_key) right_child_key
    match n.node_key with
    | none => (.error .unregisteredNode, t2)
    | some k =>
      (.ok { n with empty := false }, t2.mutateAt k (fun m => { m with empty := false }))

/-- `Node.set_categorical_test_node` (lines 381-425): same structure as the
numerical variant (child auto-creation, native call, `self.empty = False`);
the category list is only marshalled to the native call. -/
def Node.set_categorical_test_node (n : Node) (t : Tree) (_feature_id : Nat)
    (_left_categories : List Nat) (_default_left : Bool)
    (left_child_key right_child_key : Int) : Except Err Node × Tree :=
  match n.tree with
  | none => (.error .unregisteredNode, t)
  | some _ =>
    let t2 := ensureKey (ensureKey t left_child_key) right_child_key
    match n.node_key with
    | none => (.error .unregisteredNode, t2)
    | some k =>
      (.ok { n with empty := false }, t2.mutateAt k (fun m => { m with empty := false }))

/-- `ModelBuilder` (lines 486-641): `self.trees` is a Python list of `Tree`
objects.  The native model-builder handle and the constructor's parameter
validation are not needed by the container claims. -/
structure ModelBuilder where
  trees : List Tree
deriving DecidableEq

/-- `ModelBuilder.__len__` (lines 601-602). -/
def ModelBuilder.len (b : ModelBuilder) : Nat := b.trees.length

/-- `ModelBuilder.insert` (lines 505-545).  In source order: the
`isinstance(index, int)` check (always true here, `index : ℤ`), the bounds
check `index < 0 or index > len(self)` raising `ValueError('index out of
bounds')`, the `isinstance(tree, ...)` check (always true here), the native
insert (returns `index` on success), the tree-handle swap, `tree.ensemble =
self`, and `self.trees.insert(index, tree)`.  The out-of-bounds `raise`
precedes every mutation, so it returns the builder unchanged. -/
def ModelBuilder.insert (b : ModelBuilder) (tree : Tree) (index : Int) :
    Except Err Unit × ModelBuilder :=
  if index < 0 ∨ index > (b.trees.length : Int) then (.error .indexOutOfBounds, b)
  else
    let t2 : Tree := { tree with ensemble := true }
    (.ok (), { b with trees := b.trees.insertIdx index.toNat t2 })

/-- Modelled from the spec: the native call `TreeliteModelBuilderDeleteTree`
(its implementation is not part of this slice).  Per the spec, `remove(index)`
"requires a valid index; releases the ensemble-side resource at that position";
the native call succeeds exactly when `index` designates an existing position
of the ensemble and fails otherwise. -/
def nativeDeleteTreeOk (len : Nat) (index : Int) : Bool :=
  decide (0 ≤ index ∧ index < (len : Int))

/-- `ModelBuilder.__delitem__` (lines 607-611): no local validation; the
native delete is called first through `_check_call` (raising the
`TreeliteError` `nativeFailure` if it fails), then `self.trees[index].handle =
None` (handle not modelled), then `self.trees.__delitem__(index)`. -/
def ModelBuilder.delitem (b : ModelBuilder) (index : Int) :
    Except Err Unit × ModelBuilder :=
  if nativeDeleteTreeOk b.trees.length index then
    (.ok (), { b with trees := b.trees.eraseIdx index.toNat })
  else (.error .nativeFailure, b)

/-- A Python value supplied as a parameter value to the parameter-setting
helpers: a string or a numeric value. -/
inductive PVal where
  | str (s : String)
  | num (q : ℚ)
deriving DecidableEq

/-- Python `str(val)` on the modelled parameter values. -/
def PVal.pystr : PVal → String
  | .str s => s
  | .num q => toString q

/-- The three call shapes accepted by both parameter helpers: a mapping
(`collections.Mapping`, whose `.items()` yields its pairs in order), a list of
(key, value) pairs, or a single string key together with a non-`None` value. -/
inductive Params where
  | mapping (items : List (String × PVal))
  | plist (items : List (String × PVal))
  | single (key : String) (value : PVal)
deriving DecidableEq

/-- The shape normalization shared verbatim by `ModelBuilder._set_param`
(lines 634-637) and `Model._set_compiler_param` (lines 156-159): a mapping
becomes its item list, a single key/value becomes a one-element pair list, a
list is used as is. -/
def paramItems : Params → List (String × PVal)
  | .mapping m => m
  | .plist l => l
  | .single k v => [(k, v)]

/-- `ModelBuilder._set_param` (lines 623-641): for each pair, the native call
receives `c_str(key)` and `c_str(val)` — the value is forwarded raw, with no
`str()` conversion.  The list of (key, value) arguments handed to the native
calls, in order. -/
def set_param_calls (params : Params) : List (String × PVal) :=
  (paramItems params).map (fun kv => (kv.1, kv.2))

/-- `Model._set_compiler_param` (lines 141-162): for each pair, the native
call receives `c_str(key)` and `c_str(str(val))` — the value is converted with
`str()`.  The list of (key, stringValue) arguments handed to the native calls,
in order. -/
def set_compiler_param_calls (params : Params) : List (String × String) :=
  (paramItems params).map (fun kv => (kv.1, kv.2.pystr))

/-- `_isascii` (lines 12-19): `len(string) == len(string.encode())`, i.e. the
UTF-8 encoding has one byte per character, i.e. every code point is below 128. -/
def pyIsAscii (s : String) : Bool := s.toList.all (fun c => c.toNat < 128)

/-- Python `str.lower()` restricted to ASCII strings (the only ones reaching
it in `Model.load`): each `A`-`Z` maps to `a`-`z`. -/
def pyLower (s : String) : String := String.mk (s.toList.map Char.toLower)

/-- The three native importers `Model.load` can dispatch to. -/
inductive Loader where
  | lightgbm
  | xgboost
  | protobuf
deriving DecidableEq

/-- `Model.load` (lines 205-245), up to the native importer call: the ASCII
check on `model_format`, the `lower()` normalization, and the three-way
dispatch; an unknown format raises `ValueError` with no importer invoked.  On
success it returns which importer is invoked and on which path. -/
def Model.load (filename : String) (model_format : String) :
    Except Err (Loader × String) :=
  if !(pyIsAscii model_format) then .error .formatNotAscii
  else
    let f := pyLower model_format
    if f = "lightgbm" then .ok (.lightgbm, filename)
    else if f = "xgboost" then .ok (.xgboost, filename)
    else if f = "protobuf" then .ok (.protobuf, filename)
    else .error .unknownFormat

/-- The spec's UnsupportedFormatError family: both `raise ValueError` sites of
`Model.load` reject the `model_format` argument before any file access
(section 7 of the spec groups "Unknown/non-ASCII format" under the
unsupported-format error). -/
def Err.isUnsupportedFormat : Err → Bool
  | .formatNotAscii => true
  | .unknownFormat => true
  | _ => false

/-- Equality of operation results (`Except`) is decidable componentwise,
allowing concrete runs to be checked by evaluation. -/
instance exceptDecEq {ε α : Type} [DecidableEq ε] [DecidableEq α] :
    DecidableEq (Except ε α) := fun a b =>
  match a, b with
  | .error e1, .error e2 =>
    if h : e1 = e2 then .isTrue (by rw [h])
    else .isFalse (fun hh => h (Except.error.inj hh))
  | .ok a1, .ok a2 =>
    if h : a1 = a2 then .isTrue (by rw [h])
    else .isFalse (fun hh => h (Except.ok.inj hh))
  | .error _, .ok _ => .isFalse (fun hh => Except.noConfusion hh)
  | .ok _, .error _ => .isFalse (fun hh => Except.noConfusion hh)

/-! Concrete fixtures used to instantiate the theorems below. -/

/-- A node as registered at key `0` of the tree `exTree` (tid `7`). -/
def exNode : Node := { empty := true, node_key := some 0, tree := some 7 }

/-- A tree holding `exNode` at key `0`. -/
def exTree : Tree := { tid := 7, nodes := [(0, exNode)], ensemble := false }

/-- An empty sample tree. -/
def treeA : Tree := { tid := 1, nodes := [], ensemble := false }

/-- Another empty sample tree. -/
def treeB : Tree := { tid := 2, nodes := [], ensemble := false }

/-- A third empty sample tree. -/
def treeC : Tree := { tid := 3, nodes := [], ensemble := false }

/-- A sample ensemble builder holding two trees. -/
def exBuilder : ModelBuilder := { trees := [treeA, treeB] }

/-! Helper lemmas about the association-list model of the node dict. -/

/-- `lookupKey` distributes over append: the first list wins when it binds the
key. -/
theorem lookupKey_append (k : Int) (l xs : List (Int × Node)) :
    lookupKey k (l ++ xs) = (lookupKey k l).or (lookupKey k xs) := by
  induction l with
  | nil => simp [lookupKey]
  | cons p rest ih =>
    obtain ⟨k2, n⟩ := p
    by_cases h : k2 = k
    · simp [lookupKey, h]
    · simp [lookupKey, h, ih]

/-- Storing a fresh binding at an absent key makes it retrievable. -/
theorem lookupKey_append_self (k : Int) (l : List (Int × Node)) (n : Node)
    (h : lookupKey k l = none) : lookupKey k (l ++ [(k, n)]) = some n := by
  rw [lookupKey_append, h]
  simp [lookupKey]

/-- Storing a binding never disturbs a key that was already bound. -/
theorem lookupKey_append_of_isSome (k : Int) (l xs : List (Int × Node))
    (h : (lookupKey k l).isSome = true) : lookupKey k (l ++ xs) = lookupKey k l := by
  rw [lookupKey_append]
  cases hl : lookupKey k l with
  | none => rw [hl] at h; simp at h
  | some n => simp

/-! Claim theorems. -/

/-- C10: `Tree.set` on any value that is not a `Node` object fails with the
wrong-type validation error and leaves the tree unchanged, regardless of
whether the key is already present — the `isinstance` check comes before the
duplicate-key and non-empty checks. -/
theorem c10_setitem_non_node (t : Tree) (k : Int) :
    t.setitem k PyObj.nonNode = (.error .notANode, t) := by
  simp [Tree.setitem]

/-- C3: on a key already present, `Tree.set` fails with the duplicate-key
error whatever the node's state, leaving the tree unchanged; on an absent key,
a non-empty node is rejected with the non-empty-insertion error, leaving the
tree unchanged; on success the stored node records the key (`node_key`) and
the owning-tree back-reference (`tree`). -/
theorem c3_setitem_spec (t : Tree) (k : Int) (n : Node) :
    (t.member k = true → t.setitem k (.node n) = (.error .duplicateKey, t)) ∧
    (t.member k = false → n.empty = false →
      t.setitem k (.node n) = (.error .nonEmptyInsertion, t)) ∧
    (t.member k = false → n.empty = true →
      t.setitem k (.node n) =
        (.ok { n with node_key := some k, tree := some t.tid },
         { t with nodes := t.nodes ++ [(k, { n with node_key := some k, tree := some t.tid })] }) ∧
      lookupKey k (t.setitem k (.node n)).2.nodes =
        some { n with node_key := some k, tree := some t.tid }) := by
  refine ⟨?_, ?_, ?_⟩
  · intro hmem
    simp only [Tree.member] at hmem
    simp [Tree.setitem, hmem]
  · intro hmem hne
    simp only [Tree.member] at hmem
    simp [Tree.setitem, hmem, hne]
  · intro hmem hemp
    simp only [Tree.member] at hmem
    have hmem2 : lookupKey k t.nodes = none := by
      cases h : lookupKey k t.nodes with
      | none => rfl
      | some n2 => rw [h] at hmem; simp at hmem
    refine ⟨by simp [Tree.setitem, hmem2, hemp], ?_⟩
    simp only [Tree.setitem, hmem2, hemp]
    simpa using lookupKey_append_self k t.nodes _ hmem2

/-- C3 witness: inserting at the occupied key `0` of the fixture tree fails
with the duplicate-key error and leaves the tree unchanged. -/
theorem c3_setitem_spec_witness :
    exTree.setitem 0 (.node Node.new) = (.error .duplicateKey, exTree) :=
  (c3_setitem_spec exTree 0 Node.new).1 (by decide)

/-- C2: `Tree.get` on a key already present returns the stored node with the
tree (hence its length) unchanged; on a missing key it creates a fresh Empty
node, stores it at the key, and afterwards the key is a member and the length
has grown by exactly one. -/
theorem c2_getitem_spec (t : Tree) (k : Int) :
    (∀ n, lookupKey k t.nodes = some n → t.getitem k = (.ok n, t)) ∧
    (lookupKey k t.nodes = none →
      (t.getitem k).1 = .ok { empty := true, node_key := some k, tree := some t.tid } ∧
      lookupKey k (t.getitem k).2.nodes =
        some { empty := true, node_key := some k, tree := some t.tid } ∧
      (t.getitem k).2.member k = true ∧
      (t.getitem k).2.len = t.len + 1) := by
  constructor
  · intro n h
    simp [Tree.getitem, h]
  · intro h
    have hset := (c3_setitem_spec t k Node.new).2.2 (by simp [Tree.member, h]) rfl
    have hget : t.getitem k = t.setitem k (.node Node.new) := by
      simp [Tree.getitem, h]
    refine ⟨?_, ?_, ?_, ?_⟩
    · rw [hget, hset.1]
      rfl
    · rw [hget]
      exact hset.2
    · simp only [Tree.member, hget, hset.2, Option.isSome_some]
    · rw [hget, hset.1]
      simp [Tree.len]

/-- C2 witness: reading the missing key `5` of the fixture tree stores a fresh
empty node there and grows the tree by one; reading the present key `0`
returns the stored node unchanged. -/
theorem c2_getitem_spec_witness :
    (exTree.getitem 5).2.member 5 = true ∧ (exTree.getitem 5).2.len = exTree.len + 1 ∧
    exTree.getitem 0 = (.ok exNode, exTree) := by
  have h := (c2_getitem_spec exTree 5).2 (by decide)
  have h0 := (c2_getitem_spec exTree 0).1 exNode (by decide)
  exact ⟨h.2.2.1, h.2.2.2, h0⟩

/-! Positional lemmas about `List.insertIdx` and `List.eraseIdx`, used for the
ensemble sequence claims. -/

/-- Entries before the insertion point are untouched. -/
theorem insertIdx_getElem?_of_lt {α : Type} :
    ∀ (l : List α) (i : Nat), i ≤ l.length → ∀ (a : α) (j : Nat), j < i →
      (l.insertIdx i a)[j]? = l[j]? := by
  intro l
  induction l with
  | nil =>
    intro i hi a j hj
    simp only [List.length_nil, Nat.le_zero] at hi
    omega
  | cons x xs ih =>
    intro i hi a j hj
    cases i with
    | zero => omega
    | succ i2 =>
      rw [List.insertIdx_succ_cons]
      cases j with
      | zero => simp
      | succ j2 =>
        simp only [List.getElem?_cons_succ]
        exact ih i2 (by simpa using hi) a j2 (by omega)

/-- The inserted entry sits at the insertion point. -/
theorem insertIdx_getElem?_self {α : Type} :
    ∀ (l : List α) (i : Nat), i ≤ l.length → ∀ (a : α),
      (l.insertIdx i a)[i]? = some a := by
  intro l
  induction l with
  | nil =>
    intro i hi a
    simp only [List.length_nil, Nat.le_zero] at hi
    subst hi
    simp
  | cons x xs ih =>
    intro i hi a
    cases i with
    | zero => simp
    | succ i2 =>
      rw [List.insertIdx_succ_cons]
      simp only [List.getElem?_cons_succ]
      exact ih i2 (by simpa using hi) a

/-- Entries from the insertion point on move one position later. -/
theorem insertIdx_getElem?_of_ge {α : Type} :
    ∀ (l : List α) (i : Nat), i ≤ l.length → ∀ (a : α) (j : Nat), i ≤ j →
      (l.insertIdx i a)[j + 1]? = l[j]? := by
  intro l
  induction l with
  | nil =>
    intro i hi a j hj
    simp only [List.length_nil, Nat.le_zero] at hi
    subst hi
    simp
  | cons x xs ih =>
    intro i hi a j hj
    cases i with
    | zero =>
      rw [List.insertIdx_zero]
      simp
    | succ i2 =>
      rw [List.insertIdx_succ_cons]
      cases j with
      | zero => omega
      | succ j2 =>
        simp only [List.getElem?_cons_succ]
        exact ih i2 (by simpa using hi) a j2 (by omega)

/-- Entries before the erased position are untouched. -/
theorem eraseIdx_getElem?_of_lt {α : Type} :
    ∀ (l : List α) (i j : Nat), j < i → (l.eraseIdx i)[j]? = l[j]? := by
  intro l
  induction l with
  | nil => intro i j _; rfl
  | cons x xs ih =>
    intro i j hj
    cases i with
    | zero => omega
    | succ i2 =>
      rw [List.eraseIdx_cons_succ]
      cases j with
      | zero => simp
      | succ j2 =>
        simp only [List.getElem?_cons_succ]
        exact ih i2 j2 (by omega)

/-- Entries after the erased position move one position earlier. -/
theorem eraseIdx_getElem?_of_ge {α : Type} :
    ∀ (l : List α) (i j : Nat), i ≤ j → i < l.length → (l.eraseIdx i)[j]? = l[j + 1]? := by
  intro l
  induction l with
  | nil => intro i j _ h; simp at h
  | cons x xs ih =>
    intro i j hij hi
    cases i with
    | zero => simp [List.eraseIdx_cons_zero]
    | succ i2 =>
      rw [List.eraseIdx_cons_succ]
      cases j with
      | zero => omega
      | succ j2 =>
        simp only [List.getElem?_cons_succ]
        exact ih i2 j2 (by omega) (by simpa using hi)

/-- C1: `EnsembleBuilder.insert` with an index in `[0, length]` succeeds,
records the tree (now carrying its ensemble back-reference) at that position,
keeps earlier entries in place, moves every entry previously at a position
`>= index` one position later, and grows the sequence by one; any integer
index outside `[0, length]` fails with the index-out-of-bounds `ValueError`
and leaves the sequence untouched. -/
theorem c1_insert_spec (b : ModelBuilder) (t : Tree) (i : Int) :
    (0 ≤ i → i ≤ (b.trees.length : Int) →
      (b.insert t i).1 = .ok () ∧
      (b.insert t i).2.trees.length = b.trees.length + 1 ∧
      (b.insert t i).2.trees[i.toNat]? = some { t with ensemble := true } ∧
      (∀ j : Nat, j < i.toNat → (b.insert t i).2.trees[j]? = b.trees[j]?) ∧
      (∀ j : Nat, i.toNat ≤ j → (b.insert t i).2.trees[j + 1]? = b.trees[j]?)) ∧
    ((i < 0 ∨ (b.trees.length : Int) < i) →
      b.insert t i = (.error .indexOutOfBounds, b)) := by
  constructor
  · intro h0 hlen
    have hcond : ¬(i < 0 ∨ i > (b.trees.length : Int)) := by omega
    have htn : i.toNat ≤ b.trees.length := by omega
    have heq : b.insert t i =
        (.ok (), { b with trees := b.trees.insertIdx i.toNat { t with ensemble := true } }) := by
      simp [ModelBuilder.insert, hcond]
    rw [heq]
    refine ⟨rfl, ?_, ?_, ?_, ?_⟩
    · exact List.length_insertIdx i.toNat _ htn
    · exact insertIdx_getElem?_self b.trees i.toNat htn _
    · intro j hj
      exact insertIdx_getElem?_of_lt b.trees i.toNat htn _ j hj
    · intro j hj
      exact insertIdx_getElem?_of_ge b.trees i.toNat htn _ j hj
  · intro h
    have hcond : i < 0 ∨ i > (b.trees.length : Int) := by omega
    simp [ModelBuilder.insert, hcond]

/-- C1 witness: inserting the fixture tree `treeC` in the middle of the
two-tree fixture builder succeeds, placing it at position `1` and shifting the
old position-`1` tree to position `2`; inserting at position `5` fails with
the index-out-of-bounds error and changes nothing, as does position `-1`. -/
theorem c1_insert_spec_witness :
    (exBuilder.insert treeC 1).1 = .ok () ∧
    (exBuilder.insert treeC 1).2.trees[1]? = some { treeC with ensemble := true } ∧
    (exBuilder.insert treeC 1).2.trees[0]? = exBuilder.trees[0]? ∧
    (exBuilder.insert treeC 1).2.trees[2]? = exBuilder.trees[1]? ∧
    exBuilder.insert treeC 5 = (.error .indexOutOfBounds, exBuilder) ∧
    exBuilder.insert treeC (-1) = (.error .indexOutOfBounds, exBuilder) := by
  have h := (c1_insert_spec exBuilder treeC 1).1 (by decide) (by decide)
  have h5 := (c1_insert_spec exBuilder treeC 5).2 (by decide)
  have hm := (c1_insert_spec exBuilder treeC (-1)).2 (by decide)
  exact ⟨h.1, h.2.2.1, h.2.2.2.1 0 (by decide), h.2.2.2.2 1 (by decide), h5, hm⟩

/-- C8 counterexample: `remove` on an invalid index does fail, but not with
the index-out-of-range validation error the claim names — `__delitem__`
performs no local bounds check, so the failure is the `TreeliteError` raised
by `_check_call` when the native delete reports failure (contrast
`insert`, whose local check raises `ValueError('index out of bounds')`,
here `Err.indexOutOfBounds`). -/
theorem c8_delitem_counterexample :
    ((ModelBuilder.mk []).delitem 0).1 ≠ Except.error Err.indexOutOfBounds ∧
    ((ModelBuilder.mk []).delitem 0).1 = Except.error Err.nativeFailure := by
  constructor
  · intro h
    rw [show ((ModelBuilder.mk []).delitem 0).1 = Except.error Err.nativeFailure from rfl] at h
    simp at h
  · rfl

/-- C8 amended: `remove(index)` on an index not designating an existing
position fails — with the native-layer failure error, there being no local
bounds check — and leaves the sequence untouched; on a valid index it
removes the entry at that position, keeps earlier entries in place, shifts
every later entry one position earlier, and shrinks the sequence by exactly
one. -/
theorem c8_delitem_spec (b : ModelBuilder) (i : Int) :
    ((i < 0 ∨ (b.trees.length : Int) ≤ i) →
      b.delitem i = (.error .nativeFailure, b)) ∧
    (0 ≤ i → i < (b.trees.length : Int) →
      (b.delitem i).1 = .ok () ∧
      (b.delitem i).2.trees.length + 1 = b.trees.length ∧
      (∀ j : Nat, j < i.toNat → (b.delitem i).2.trees[j]? = b.trees[j]?) ∧
      (∀ j : Nat, i.toNat ≤ j → (b.delitem i).2.trees[j]? = b.trees[j + 1]?)) := by
  constructor
  · intro h
    have hcond : nativeDeleteTreeOk b.trees.length i = false := by
      simp only [nativeDeleteTreeOk, decide_eq_false_iff_not]
      omega
    simp [ModelBuilder.delitem, hcond]
  · intro h0 hlt
    have hcond : nativeDeleteTreeOk b.trees.length i = true := by
      simp only [nativeDeleteTreeOk, decide_eq_true_eq]
      omega
    have htn : i.toNat < b.trees.length := by omega
    have heq : b.delitem i = (.ok (), { b with trees := b.trees.eraseIdx i.toNat }) := by
      simp [ModelBuilder.delitem, hcond]
    rw [heq]
    refine ⟨rfl, ?_, ?_, ?_⟩
    · exact List.length_eraseIdx_add_one htn
    · intro j hj
      exact eraseIdx_getElem?_of_lt b.trees i.toNat j hj
    · intro j hj
      exact eraseIdx_getElem?_of_ge b.trees i.toNat j hj htn

/-- C8 witness: deleting position `0` of the two-tree fixture builder
succeeds, shifts the old position-`1` tree to position `0`, and shrinks the
sequence to one entry; deleting position `2` fails and changes nothing. -/
theorem c8_delitem_spec_witness :
    (exBuilder.delitem 0).1 = .ok () ∧
    (exBuilder.delitem 0).2.trees.length + 1 = exBuilder.trees.length ∧
    (exBuilder.delitem 0).2.trees[0]? = exBuilder.trees[1]? ∧
    exBuilder.delitem 2 = (.error .nativeFailure, exBuilder) := by
  have h := (c8_delitem_spec exBuilder 0).2 (by decide) (by decide)
  have h2 := (c8_delitem_spec exBuilder 2).1 (by decide)
  exact ⟨h.1, h.2.1, h.2.2.2 0 (by decide), h2⟩

/-- C4 counterexample: `set_leaf_node` converts its argument before touching
any attribute of `self`, so on a node never inserted into any tree a
non-numeric `leaf_value` fails with the leaf-value-type error, not the
unregistered-node error the claim asserts for every mutator call. -/
theorem c4_counterexample :
    (Node.new.set_leaf_node LeafVal.nonNum).1 ≠ Except.error Err.unregisteredNode ∧
    (Node.new.set_leaf_node LeafVal.nonNum).1 = Except.error Err.leafValueType := by
  constructor
  · intro h
    rw [show (Node.new.set_leaf_node LeafVal.nonNum).1 = Except.error Err.leafValueType
        from rfl] at h
    simp at h
  · rfl

/-- C4 amended: on a node never inserted into any tree, `set_root`,
`set_numerical_test_node` and `set_categorical_test_node` fail with the
unregistered-node error for all arguments, and `set_leaf_node` fails with the
unregistered-node error exactly when its argument conversion succeeds (a
single numeric value, or an iterable — a sequence or a string iterated
character-wise — whose elements all convert under `float()`); when the
conversion raises `TypeError` (a non-iterable non-numeric, or an iterable
with such an element) it fails with the leaf-value-type error, and when it
raises `ValueError` (a string element that does not parse as a number) that
`ValueError` propagates uncaught — both raised before the registration
check.  On a node that has been inserted into a tree, no mutator fails with
the unregistered-node error. -/
theorem c4_mutators_spec :
    (∀ n : Node, n.tree = none →
      n.set_root.1 = .error .unregisteredNode ∧
      (∀ t fid op thr dl lk rk,
        (n.set_numerical_test_node t fid op thr dl lk rk).1 = .error .unregisteredNode) ∧
      (∀ t fid cats dl lk rk,
        (n.set_categorical_test_node t fid cats dl lk rk).1 = .error .unregisteredNode) ∧
      (∀ v st, leafConv v = .ok st → (n.set_leaf_node v).1 = .error .unregisteredNode) ∧
      (∀ v, leafConv v = .error .typeErr →
        (n.set_leaf_node v).1 = .error .leafValueType) ∧
      (∀ v, leafConv v = .error .valueErr →
        (n.set_leaf_node v).1 = .error .uncaughtValueError)) ∧
    (∀ (n : Node) (tid : Nat) (k : Int), n.tree = some tid → n.node_key = some k →
      n.set_root.1 ≠ .error .unregisteredNode ∧
      (∀ t fid op thr dl lk rk,
        (n.set_numerical_test_node t fid op thr dl lk rk).1 ≠ .error .unregisteredNode) ∧
      (∀ t fid cats dl lk rk,
        (n.set_categorical_test_node t fid cats dl lk rk).1 ≠ .error .unregisteredNode) ∧
      (∀ v, (n.set_leaf_node v).1 ≠ .error .unregisteredNode)) := by
  constructor
  · intro n hn
    refine ⟨?_, ?_, ?_, ?_, ?_, ?_⟩
    · simp [Node.set_root, hn]
    · intro t fid op thr dl lk rk
      simp [Node.set_numerical_test_node, hn]
    · intro t fid cats dl lk rk
      simp [Node.set_categorical_test_node, hn]
    · intro v st hst
      simp [Node.set_leaf_node, hst, hn]
    · intro v hv
      simp [Node.set_leaf_node, hv]
    · intro v hv
      simp [Node.set_leaf_node, hv]
  · intro n tid k hn hk
    refine ⟨?_, ?_, ?_, ?_⟩
    · simp [Node.set_root, hn, hk]
    · intro t fid op thr dl lk rk
      simp [Node.set_numerical_test_node, hn, hk]
    · intro t fid cats dl lk rk
      simp [Node.set_categorical_test_node, hn, hk]
    · intro v
      cases hv : leafConv v with
      | ok st => simp [Node.set_leaf_node, hv, hn, hk]
      | error e =>
        cases e with
        | typeErr => simp [Node.set_leaf_node, hv]
        | valueErr => simp [Node.set_leaf_node, hv]

/-- C4 witness: a fresh node fails `set_root` with the unregistered-node
error, and fails `set_leaf_node` with that error both for a numeric value and
for the digit string `"5"` (whose conversion succeeds character-wise); the
registered fixture node does not fail with it. -/
theorem c4_mutators_spec_witness :
    Node.new.set_root.1 = .error .unregisteredNode ∧
    exNode.set_root.1 ≠ .error .unregisteredNode ∧
    (Node.new.set_leaf_node (.num 1)).1 = .error .unregisteredNode ∧
    (Node.new.set_leaf_node (.str ['5'])).1 = .error .unregisteredNode := by
  have h1 := (c4_mutators_spec.1 Node.new rfl).1
  have h2 := (c4_mutators_spec.2 exNode 7 0 rfl rfl).1
  have h3 := (c4_mutators_spec.1 Node.new rfl).2.2.2.1 (.num 1) (.scalar 1) (by decide)
  have h4 := (c4_mutators_spec.1 Node.new rfl).2.2.2.1 (.str ['5']) (.vector [5]) (by
    simp [leafConv, LeafVal.isIterable, LeafVal.elems, pyFloatList, pyFloat, Except.map,
      pyFloatOfChars, parseUnsigned, parseExpTail, digitsNat, scaleByPow10,
      List.dropWhile, List.takeWhile, Char.isDigit, Char.isWhitespace])
  exact ⟨h1, h2, h3, h4⟩

/-- The Python list comprehension succeeds on an all-numeric list, converting
elementwise. -/
theorem pyFloatList_all_num :
    ∀ xs : List LeafVal, xs.all LeafVal.isNumeric = true →
      pyFloatList xs = .ok (xs.map LeafVal.numOf) := by
  intro xs
  induction xs with
  | nil => intro _; rfl
  | cons v vs ih =>
    intro h
    simp only [List.all_cons, Bool.and_eq_true] at h
    cases v with
    | num q => simp [pyFloatList, pyFloat, LeafVal.numOf, ih h.2]
    | str cs => simp [LeafVal.isNumeric] at h
    | seq ys => simp [LeafVal.isNumeric] at h
    | nonNum => simp [LeafVal.isNumeric] at h

/-- C6 counterexample: on the registered fixture node, `set_leaf_node("5")`
succeeds — the digit string is iterable, so it is converted character-wise
and stored as the vector `[5]` — although `"5"` is neither a single numeric
value nor a sequence of numeric values; and `set_leaf_node("abc")` fails with
the uncaught `ValueError` escaping `float('a')` (only `TypeError` is caught
at line 317), not with the leaf-value type error the claim asserts. -/
theorem c6_counterexample :
    (exNode.set_leaf_node (.str ['5'])).1 = .ok (.vector [5]) ∧
    (exNode.set_leaf_node (.str ['a', 'b', 'c'])).1 = .error .uncaughtValueError ∧
    Err.uncaughtValueError ≠ Err.leafValueType := by
  have h5 : leafConv (.str ['5']) = .ok (.vector [5]) := by
    simp [leafConv, LeafVal.isIterable, LeafVal.elems, pyFloatList, pyFloat, Except.map,
      pyFloatOfChars, parseUnsigned, parseExpTail, digitsNat, scaleByPow10,
      List.dropWhile, List.takeWhile, Char.isDigit, Char.isWhitespace]
  have habc : leafConv (.str ['a', 'b', 'c']) = .error .valueErr := by
    simp [leafConv, LeafVal.isIterable, LeafVal.elems, pyFloatList, pyFloat, Except.map,
      pyFloatOfChars, parseUnsigned, parseExpTail, digitsNat, scaleByPow10,
      List.dropWhile, List.takeWhile, Char.isDigit, Char.isWhitespace]
  refine ⟨?_, ?_, by decide⟩
  · simp [Node.set_leaf_node, h5, exNode]
  · simp [Node.set_leaf_node, habc]

/-- C6 amended: on a registered node, `set_leaf_node` succeeds storing the
scalar for a single numeric value, and the elementwise `float()`-converted
vector for any iterable whose elements all convert — a sequence of numerics,
but also a string of numeric characters, iterated character-wise, so success
is not limited to the claim's two classes; a non-iterable non-numeric fails
with the leaf-value-type error (the `TypeError` from `float()` is caught), as
does any iterable whose conversion raises `TypeError`; but an iterable whose
conversion raises `ValueError` (a string element that does not parse as a
number) fails with that uncaught `ValueError`, not the type error.  On
failure the node is unchanged. -/
theorem c6_set_leaf_spec (n : Node) (tid : Nat) (k : Int)
    (hn : n.tree = some tid) (hk : n.node_key = some k) :
    (∀ q : ℚ, n.set_leaf_node (.num q) = (.ok (.scalar q), { n with empty := false })) ∧
    (∀ xs, xs.all LeafVal.isNumeric = true →
      n.set_leaf_node (.seq xs) =
        (.ok (.vector (xs.map LeafVal.numOf)), { n with empty := false })) ∧
    (n.set_leaf_node .nonNum = (.error .leafValueType, n)) ∧
    (∀ v qs, v.isIterable = true → pyFloatList v.elems = .ok qs →
      n.set_leaf_node v = (.ok (.vector qs), { n with empty := false })) ∧
    (∀ v, leafConv v = .error .typeErr →
      n.set_leaf_node v = (.error .leafValueType, n)) ∧
    (∀ v, leafConv v = .error .valueErr →
      n.set_leaf_node v = (.error .uncaughtValueError, n)) := by
  refine ⟨?_, ?_, ?_, ?_, ?_, ?_⟩
  · intro q
    simp [Node.set_leaf_node, leafConv, LeafVal.isIterable, pyFloat, Except.map, hn, hk]
  · intro xs hall
    simp [Node.set_leaf_node, leafConv, LeafVal.isIterable, LeafVal.elems, Except.map,
      pyFloatList_all_num xs hall, hn, hk]
  · simp [Node.set_leaf_node, leafConv, LeafVal.isIterable, pyFloat, Except.map]
  · intro v qs hit hconv
    have hc : leafConv v = .ok (.vector qs) := by
      simp [leafConv, hit, hconv, Except.map]
    simp [Node.set_leaf_node, hc, hn, hk]
  · intro v hv
    simp [Node.set_leaf_node, hv]
  · intro v hv
    simp [Node.set_leaf_node, hv]

/-- C6 witness: on the registered fixture node, a numeric scalar, an
all-numeric sequence and the digit string `"42"` succeed (vectors
elementwise-converted); `None` fails with the leaf-value-type error; and a
sequence containing the string `"x"` fails with the uncaught `ValueError`. -/
theorem c6_set_leaf_spec_witness :
    exNode.set_leaf_node (.num (1/2)) =
      (.ok (.scalar (1/2)), { exNode with empty := false }) ∧
    exNode.set_leaf_node (.seq [.num 1, .num 2]) =
      (.ok (.vector [1, 2]), { exNode with empty := false }) ∧
    exNode.set_leaf_node (.str ['4', '2']) =
      (.ok (.vector [4, 2]), { exNode with empty := false }) ∧
    exNode.set_leaf_node .nonNum = (.error .leafValueType, exNode) ∧
    exNode.set_leaf_node (.seq [.num 1, .str ['x']]) =
      (.error .uncaughtValueError, exNode) := by
  have h := c6_set_leaf_spec exNode 7 0 rfl rfl
  refine ⟨h.1 (1/2), h.2.1 [.num 1, .num 2] (by decide), ?_, h.2.2.1, ?_⟩
  · refine h.2.2.2.1 (.str ['4', '2']) [4, 2] (by decide) ?_
    simp [LeafVal.elems, pyFloatList, pyFloat, pyFloatOfChars, parseUnsigned,
      parseExpTail, digitsNat, scaleByPow10, List.dropWhile, List.takeWhile,
      Char.isDigit, Char.isWhitespace]
  · refine h.2.2.2.2.2 (.seq [.num 1, .str ['x']]) ?_
    simp [leafConv, LeafVal.isIterable, LeafVal.elems, pyFloatList, pyFloat, Except.map,
      pyFloatOfChars, parseUnsigned, parseExpTail, digitsNat, scaleByPow10,
      List.dropWhile, List.takeWhile, Char.isDigit, Char.isWhitespace]

/-! Lemmas about the child auto-creation step (`ensureKey`) and the in-place
node mutation (`Tree.mutateAt`), used for the test-node mutator claim. -/

/-- An `isSome`-valued lookup is a `some`-valued lookup. -/
theorem isSome_false_elim {α : Type} {o : Option α} (h : o.isSome = false) : o = none := by
  cases o with
  | none => rfl
  | some a => simp at h

/-- `ensureKey` on a present key does nothing. -/
theorem ensureKey_present (t : Tree) (L : Int) (h : (lookupKey L t.nodes).isSome = true) :
    ensureKey t L = t := by
  simp [ensureKey, h]

/-- `ensureKey` on an absent key appends a fresh registered empty node. -/
theorem ensureKey_absent (t : Tree) (L : Int) (h : lookupKey L t.nodes = none) :
    ensureKey t L =
      { t with nodes :=
          t.nodes ++ [(L, { empty := true, node_key := some L, tree := some t.tid })] } := by
  have h2 : (lookupKey L t.nodes).isSome = false := by rw [h]; rfl
  simp [ensureKey, h2, Tree.setitem, h, Node.new]

/-- `ensureKey` never changes the tree's identity. -/
theorem ensureKey_tid (t : Tree) (L : Int) : (ensureKey t L).tid = t.tid := by
  by_cases h : (lookupKey L t.nodes).isSome
  · rw [ensureKey_present t L h]
  · rw [ensureKey_absent t L (isSome_false_elim (Bool.eq_false_iff.mpr h))]

/-- `ensureKey` preserves the binding of every key that is already bound. -/
theorem ensureKey_lookup_of_isSome (t : Tree) (L j : Int)
    (h : (lookupKey j t.nodes).isSome = true) :
    lookupKey j (ensureKey t L).nodes = lookupKey j t.nodes := by
  by_cases hL : (lookupKey L t.nodes).isSome
  · rw [ensureKey_present t L hL]
  · rw [ensureKey_absent t L (isSome_false_elim (Bool.eq_false_iff.mpr hL))]
    exact lookupKey_append_of_isSome j t.nodes _ h

/-- After `ensureKey`, the key is bound. -/
theorem ensureKey_member_self (t : Tree) (L : Int) :
    (lookupKey L (ensureKey t L).nodes).isSome = true := by
  by_cases hL : (lookupKey L t.nodes).isSome
  · rw [ensureKey_present t L hL]; exact hL
  · have h2 := isSome_false_elim (Bool.eq_false_iff.mpr hL)
    rw [ensureKey_absent t L h2]
    simp only
    rw [lookupKey_append_self L t.nodes _ h2]
    rfl

/-- After `ensureKey` on an absent key, the key is bound to a fresh empty node
registered in this tree. -/
theorem ensureKey_lookup_absent (t : Tree) (L : Int) (h : lookupKey L t.nodes = none) :
    lookupKey L (ensureKey t L).nodes =
      some { empty := true, node_key := some L, tree := some t.tid } := by
  rw [ensureKey_absent t L h]
  exact lookupKey_append_self L t.nodes _ h

/-- `ensureKey` at one key leaves a different absent key absent. -/
theorem ensureKey_lookup_none_ne (t : Tree) (L R : Int) (hne : R ≠ L)
    (h : lookupKey R t.nodes = none) : lookupKey R (ensureKey t L).nodes = none := by
  by_cases hL : (lookupKey L t.nodes).isSome
  · rw [ensureKey_present t L hL]; exact h
  · rw [ensureKey_absent t L (isSome_false_elim (Bool.eq_false_iff.mpr hL))]
    simp only
    rw [lookupKey_append, h]
    have hLR : ¬(L = R) := fun hh => hne hh.symm
    simp [lookupKey, hLR]

/-- In-place mutation at one key leaves every other key's binding unchanged. -/
theorem lookupKey_mutate_ne (k j : Int) (f : Node → Node) (hj : j ≠ k) :
    ∀ l : List (Int × Node), lookupKey j (mutateNodes k f l) = lookupKey j l := by
  intro l
  induction l with
  | nil => rfl
  | cons p rest ih =>
    obtain ⟨k2, n⟩ := p
    rw [show mutateNodes k f ((k2, n) :: rest) =
        (if k2 = k then (k2, f n) else (k2, n)) :: mutateNodes k f rest from rfl]
    by_cases hk : k2 = k
    · rw [if_pos hk]
      rw [show lookupKey j ((k2, f n) :: mutateNodes k f rest) =
          if k2 = j then some (f n) else lookupKey j (mutateNodes k f rest) from rfl]
      rw [show lookupKey j ((k2, n) :: rest) =
          if k2 = j then some n else lookupKey j rest from rfl]
      have hne : ¬(k2 = j) := fun h => hj (h ▸ hk)
      rw [if_neg hne, if_neg hne, ih]
    · rw [if_neg hk]
      rw [show lookupKey j ((k2, n) :: mutateNodes k f rest) =
          if k2 = j then some n else lookupKey j (mutateNodes k f rest) from rfl]
      rw [show lookupKey j ((k2, n) :: rest) =
          if k2 = j then some n else lookupKey j rest from rfl]
      by_cases hj2 : k2 = j
      · rw [if_pos hj2, if_pos hj2]
      · rw [if_neg hj2, if_neg hj2, ih]

/-- In-place mutation at a key preserves whether any key is bound. -/
theorem lookupKey_mutate_isSome (k j : Int) (f : Node → Node) :
    ∀ l : List (Int × Node),
      (lookupKey j (mutateNodes k f l)).isSome = (lookupKey j l).isSome := by
  intro l
  induction l with
  | nil => rfl
  | cons p rest ih =>
    obtain ⟨k2, n⟩ := p
    rw [show mutateNodes k f ((k2, n) :: rest) =
        (if k2 = k then (k2, f n) else (k2, n)) :: mutateNodes k f rest from rfl]
    rw [show lookupKey j ((k2, n) :: rest) =
        if k2 = j then some n else lookupKey j rest from rfl]
    by_cases hk : k2 = k
    · rw [if_pos hk]
      rw [show lookupKey j ((k2, f n) :: mutateNodes k f rest) =
          if k2 = j then some (f n) else lookupKey j (mutateNodes k f rest) from rfl]
      by_cases hj2 : k2 = j
      · rw [if_pos hj2, if_pos hj2]
        rfl
      · rw [if_neg hj2, if_neg hj2]
        exact ih
    · rw [if_neg hk]
      rw [show lookupKey j ((k2, n) :: mutateNodes k f rest) =
          if k2 = j then some n else lookupKey j (mutateNodes k f rest) from rfl]
      by_cases hj2 : k2 = j
      · rw [if_pos hj2, if_pos hj2]
      · rw [if_neg hj2, if_neg hj2]
        exact ih

/-- C5: on a node registered at key `k` of its owning tree, a successful
`set_numerical_test_node` with child keys `L` and `R` leaves both `L` and `R`
bound in the tree; each child key that was absent before the call is now bound
to a fresh empty node registered in this tree, and every key other than the
node's own that was bound before keeps its binding. -/
theorem c5_numerical_children (t : Tree) (n : Node) (k : Int)
    (hk : n.node_key = some k) (hn : n.tree = some t.tid)
    (hreg : lookupKey k t.nodes = some n)
    (fid : Nat) (op : String) (thr : ℚ) (dl : Bool) (L R : Int) :
    ((n.set_numerical_test_node t fid op thr dl L R).1 = .ok { n with empty := false }) ∧
    ((n.set_numerical_test_node t fid op thr dl L R).2.member L = true) ∧
    ((n.set_numerical_test_node t fid op thr dl L R).2.member R = true) ∧
    (lookupKey L t.nodes = none →
      lookupKey L (n.set_numerical_test_node t fid op thr dl L R).2.nodes =
        some { empty := true, node_key := some L, tree := some t.tid }) ∧
    (lookupKey R t.nodes = none →
      lookupKey R (n.set_numerical_test_node t fid op thr dl L R).2.nodes =
        some { empty := true, node_key := some R, tree := some t.tid }) ∧
    (∀ j : Int, j ≠ k → (lookupKey j t.nodes).isSome = true →
      lookupKey j (n.set_numerical_test_node t fid op thr dl L R).2.nodes =
        lookupKey j t.nodes) := by
  have hred : n.set_numerical_test_node t fid op thr dl L R =
      (.ok { n with empty := false },
       (ensureKey (ensureKey t L) R).mutateAt k (fun m => { m with empty := false })) := by
    simp [Node.set_numerical_test_node, hn, hk]
  have hmemk : (lookupKey k t.nodes).isSome = true := by rw [hreg]; rfl
  refine ⟨by rw [hred], ?_, ?_, ?_, ?_, ?_⟩
  · -- L is bound afterwards
    rw [hred]
    show (lookupKey L (((ensureKey (ensureKey t L) R).mutateAt k _).nodes)).isSome = true
    rw [show ∀ (X : Tree) (f : Node → Node),
          (X.mutateAt k f).nodes = mutateNodes k f X.nodes
        from fun _ _ => rfl]
    rw [lookupKey_mutate_isSome]
    rw [ensureKey_lookup_of_isSome _ R L (ensureKey_member_self t L)]
    exact ensureKey_member_self t L
  · -- R is bound afterwards
    rw [hred]
    show (lookupKey R (((ensureKey (ensureKey t L) R).mutateAt k _).nodes)).isSome = true
    rw [show ∀ (X : Tree) (f : Node → Node),
          (X.mutateAt k f).nodes = mutateNodes k f X.nodes
        from fun _ _ => rfl]
    rw [lookupKey_mutate_isSome]
    exact ensureKey_member_self (ensureKey t L) R
  · -- an absent L is freshly bound
    intro hL
    have hLk : L ≠ k := by
      intro h
      rw [h, hreg] at hL
      exact Option.noConfusion hL
    rw [hred]
    show lookupKey L (((ensureKey (ensureKey t L) R).mutateAt k _).nodes) = _
    rw [show ∀ (X : Tree) (f : Node → Node),
          (X.mutateAt k f).nodes = mutateNodes k f X.nodes
        from fun _ _ => rfl]
    rw [lookupKey_mutate_ne k L _ hLk]
    rw [ensureKey_lookup_of_isSome _ R L (ensureKey_member_self t L)]
    exact ensureKey_lookup_absent t L hL
  · -- an absent R is freshly bound
    intro hR
    have hRk : R ≠ k := by
      intro h
      rw [h, hreg] at hR
      exact Option.noConfusion hR
    rw [hred]
    show lookupKey R (((ensureKey (ensureKey t L) R).mutateAt k _).nodes) = _
    rw [show ∀ (X : Tree) (f : Node → Node),
          (X.mutateAt k f).nodes = mutateNodes k f X.nodes
        from fun _ _ => rfl]
    rw [lookupKey_mutate_ne k R _ hRk]
    by_cases hRL : R = L
    · subst hRL
      rw [ensureKey_present (ensureKey t R) R (ensureKey_member_self t R)]
      exact ensureKey_lookup_absent t R hR
    · have hR1 : lookupKey R (ensureKey t L).nodes = none :=
        ensureKey_lookup_none_ne t L R hRL hR
      rw [ensureKey_lookup_absent (ensureKey t L) R hR1, ensureKey_tid t L]
  · -- other bound keys keep their binding
    intro j hjk hj
    rw [hred]
    show lookupKey j (((ensureKey (ensureKey t L) R).mutateAt k _).nodes) = _
    rw [show ∀ (X : Tree) (f : Node → Node),
          (X.mutateAt k f).nodes = mutateNodes k f X.nodes
        from fun _ _ => rfl]
    rw [lookupKey_mutate_ne k j _ hjk]
    have h1 : lookupKey j (ensureKey t L).nodes = lookupKey j t.nodes :=
      ensureKey_lookup_of_isSome t L j hj
    rw [ensureKey_lookup_of_isSome (ensureKey t L) R j (by rw [h1]; exact hj)]
    exact h1

/-- C5 witness: configuring the registered fixture node as a numerical test
with the absent child keys `1` and `2` binds both keys to fresh empty nodes
registered in the fixture tree. -/
theorem c5_numerical_children_witness :
    (exNode.set_numerical_test_node exTree 3 "<" (1/2) true 1 2).2.member 1 = true ∧
    (exNode.set_numerical_test_node exTree 3 "<" (1/2) true 1 2).2.member 2 = true ∧
    lookupKey 1 (exNode.set_numerical_test_node exTree 3 "<" (1/2) true 1 2).2.nodes =
      some { empty := true, node_key := some 1, tree := some 7 } ∧
    lookupKey 2 (exNode.set_numerical_test_node exTree 3 "<" (1/2) true 1 2).2.nodes =
      some { empty := true, node_key := some 2, tree := some 7 } := by
  have h := c5_numerical_children exTree exNode 0 rfl rfl (by decide) 3 "<" (1/2) true 1 2
  exact ⟨h.2.1, h.2.2.1, h.2.2.2.1 (by decide), h.2.2.2.2.1 (by decide)⟩

/-- C7: the two parameter-setting paths share the three-shape normalization
(both are `paramItems` composed with the per-pair native call), but they do
not hand the native layer the same (key, stringValue) sequence: the
compile-path helper converts each value with `str()`, while the
builder-construction helper forwards the raw value with no conversion.  At
the documented builder parameter `sigmoid_alpha = 0.5` the builder path emits
the non-string raw value where the compile path emits the string form. -/
theorem c7_param_paths_divergence :
    set_param_calls (.single "sigmoid_alpha" (.num (1/2))) =
      [("sigmoid_alpha", PVal.num (1/2))] ∧
    set_compiler_param_calls (.single "sigmoid_alpha" (.num (1/2))) =
      [("sigmoid_alpha", (PVal.num (1/2)).pystr)] ∧
    (∀ s : String, PVal.num (1/2) ≠ PVal.str s) := by
  refine ⟨rfl, rfl, ?_⟩
  intro s h
  exact PVal.noConfusion h

/-- C9: `Model.load` accepts the three supported formats case-insensitively
(an ASCII format string whose lowercase form is `xgboost`, `lightgbm` or
`protobuf` dispatches to the matching importer on the given path); a
non-ASCII format or one with any other lowercase form fails — with one of the
two `ValueError`s of the unsupported-format family — and no importer is
invoked (the result carries no importer and no file is touched). -/
theorem c9_load_spec (p fmt : String) :
    (pyIsAscii fmt = true → pyLower fmt = "xgboost" →
      Model.load p fmt = .ok (.xgboost, p)) ∧
    (pyIsAscii fmt = true → pyLower fmt = "lightgbm" →
      Model.load p fmt = .ok (.lightgbm, p)) ∧
    (pyIsAscii fmt = true → pyLower fmt = "protobuf" →
      Model.load p fmt = .ok (.protobuf, p)) ∧
    (pyIsAscii fmt = false →
      Model.load p fmt = .error .formatNotAscii ∧
      Err.isUnsupportedFormat .formatNotAscii = true) ∧
    (pyIsAscii fmt = true → pyLower fmt ≠ "xgboost" → pyLower fmt ≠ "lightgbm" →
      pyLower fmt ≠ "protobuf" →
      Model.load p fmt = .error .unknownFormat ∧
      Err.isUnsupportedFormat .unknownFormat = true) := by
  refine ⟨?_, ?_, ?_, ?_, ?_⟩
  · intro ha hf
    simp [Model.load, ha, hf]
  · intro ha hf
    simp [Model.load, ha, hf]
  · intro ha hf
    simp [Model.load, ha, hf]
  · intro ha
    exact ⟨by simp [Model.load, ha], rfl⟩
  · intro ha h1 h2 h3
    exact ⟨by simp [Model.load, ha, h1, h2, h3], rfl⟩

/-- C9 witness: the mixed-case ASCII format `"XGBoost"` dispatches to the
xgboost importer; the non-ASCII format `"xgboosté"` and the unknown
format `"keras"` are both rejected with an unsupported-format-family error
and no importer. -/
theorem c9_load_spec_witness :
    Model.load "m.bin" "XGBoost" = .ok (.xgboost, "m.bin") ∧
    Model.load "m.bin" "xgboosté" = .error .formatNotAscii ∧
    Model.load "m.bin" "keras" = .error .unknownFormat := by
  refine ⟨?_, ?_, ?_⟩
  · exact (c9_load_spec "m.bin" "XGBoost").1 (by decide) (by decide)
  · exact ((c9_load_spec "m.bin" "xgboosté").2.2.2.1 (by decide)).1
  · exact ((c9_load_spec "m.bin" "keras").2.2.2.2 (by decide) (by decide) (by decide)
      (by decide)).1

end Treelite
